import Mathlib

/-!
# Verification of `esp-idf-build/main/main.c`

The translation unit holds one function, `app_main`, whose body is two
consecutive `ESP_LOGI` calls with the file-level tag `TAG`.  The embedding
below passes the observable state explicitly and lets every operation return
an `Except` value, so that "cannot fail" is a theorem and not a typing
convention.  A second, small-step view of the same two statements is given
for the termination results.
-/

namespace GdoBuild

/-! ## State -/

/-- Modelled from the spec: the severity levels of the logging facility of
`esp_log.h`, which is not part of the sources.  The spec speaks of
informational log lines; the remaining levels are the ones a log call could
have been made at instead. -/
inductive esp_log_level_t where
  | ESP_LOG_ERROR
  | ESP_LOG_WARN
  | ESP_LOG_INFO
  | ESP_LOG_DEBUG
  | ESP_LOG_VERBOSE
  deriving DecidableEq, Repr

/-- One emission received by the logging sink: the level it was made at, the
tag string and the format string handed to the logging call. -/
structure LogEntry where
  level : esp_log_level_t
  tag : String
  format : String
  deriving DecidableEq, Repr

/-- The observable state around `app_main`.  `log` is the logging sink, oldest
emission first.  `gdo_calls` records the calls made into the library declared
by `gdo.h`; the header is not part of the sources, so the type `γ` of a call
record is left open.  `rest` is every other observable component, of an
arbitrary type `ρ`. -/
structure World (γ ρ : Type) where
  log : List LogEntry
  gdo_calls : List γ
  rest : ρ

/-! ## The program -/

/-- `static const char *TAG = "gdo_test";` (main.c, line 12). -/
def TAG : String := "gdo_test"

/-- Modelled from the spec: the macro `ESP_LOGI` of `esp_log.h`, which is not
part of the sources.  The spec describes it as an external logging facility
accepting a tag string and a format string and writing an informational line
to the logging sink: one entry is appended to the sink and nothing else in
the state is touched.  The result is an `Except` value so that a failure
would be visible to the caller; the facility described has none. -/
def ESP_LOGI (ε : Type) {γ ρ : Type} (tag format : String) (w : World γ ρ) :
    Except ε (World γ ρ) :=
  .ok { w with log := w.log ++ [⟨.ESP_LOG_INFO, tag, format⟩] }

/-- The statement on line 15 of main.c. -/
def stmt15 (ε : Type) {γ ρ : Type} (w : World γ ρ) : Except ε (World γ ρ) :=
  ESP_LOGI ε TAG "ESP32-C6 GDO Library - Build verification only" w

/-- The statement on line 16 of main.c. -/
def stmt16 (ε : Type) {γ ρ : Type} (w : World γ ρ) : Except ε (World γ ρ) :=
  ESP_LOGI ε TAG "This application is for library compilation testing" w

/-- `void app_main(void)` (main.c, lines 14 to 17): the statement of line 15,
then the statement of line 16, then the return of the `void` result. -/
def app_main (ε : Type) {γ ρ : Type} (w : World γ ρ) : Except ε (Unit × World γ ρ) := do
  let w ← stmt15 ε w
  let w ← stmt16 ε w
  return ((), w)

/-- The emissions of one invocation of `app_main` started in `w`: what the
sink holds afterwards beyond what it held before.  A failed invocation would
count as having emitted nothing. -/
def emitted (ε : Type) {γ ρ : Type} (w : World γ ρ) : List LogEntry :=
  match app_main ε w with
  | .ok (_, w') => w'.log.drop w.log.length
  | .error _ => []

/-! ## Small-step view -/

/-- Control points of `app_main`: before line 15, before line 16, and after
the closing brace. -/
inductive Pc where
  | line15
  | line16
  | returned
  deriving DecidableEq, Repr

/-- A configuration of the running function. -/
structure Config (γ ρ : Type) where
  pc : Pc
  world : World γ ρ

/-- The configuration in which `app_main` is entered. -/
def Config.init {γ ρ : Type} (w : World γ ρ) : Config γ ρ := ⟨.line15, w⟩

/-- One step of `app_main`.  `.ok (some c)` is the successor configuration,
`.ok none` says that the function has returned and no step exists, and
`.error e` would be a failing statement. -/
def step (ε : Type) {γ ρ : Type} : Config γ ρ → Except ε (Option (Config γ ρ))
  | ⟨.line15, w⟩ => do
    let w ← stmt15 ε w
    return some ⟨.line16, w⟩
  | ⟨.line16, w⟩ => do
    let w ← stmt16 ε w
    return some ⟨.returned, w⟩
  | ⟨.returned, _⟩ => return none

/-- Exactly `n` steps from `c`: `.ok (some c')` when all `n` steps exist and
lead to `c'`, `.ok none` when the function returns before `n` steps have been
taken. -/
def steps (ε : Type) {γ ρ : Type} : Nat → Config γ ρ → Except ε (Option (Config γ ρ))
  | 0, c => return some c
  | n + 1, c => do
    match ← step ε c with
    | none => return none
    | some c' => steps ε n c'

/-- Number of statements still to be executed at a control point. -/
def Pc.remaining : Pc → Nat
  | .line15 => 2
  | .line16 => 1
  | .returned => 0

/-! ## Auxiliary facts -/

/-- The first entry written by `app_main`. -/
def entry15 : LogEntry :=
  ⟨.ESP_LOG_INFO, "gdo_test", "ESP32-C6 GDO Library - Build verification only"⟩

/-- The second entry written by `app_main`. -/
def entry16 : LogEntry :=
  ⟨.ESP_LOG_INFO, "gdo_test", "This application is for library compilation testing"⟩

theorem app_main_eq (ε : Type) {γ ρ : Type} (w : World γ ρ) :
    app_main ε w = .ok ((), { w with log := w.log ++ [entry15, entry16] }) := by
  simp [app_main, stmt15, stmt16, ESP_LOGI, TAG, entry15, entry16, bind, Except.bind, pure,
    Except.pure]

theorem emitted_eq (ε : Type) {γ ρ : Type} (w : World γ ρ) :
    emitted ε w = [entry15, entry16] := by
  simp [emitted, app_main_eq]

theorem steps_two (ε : Type) {γ ρ : Type} (w : World γ ρ) :
    steps ε 2 (Config.init w) =
      .ok (some ⟨.returned, { w with log := w.log ++ [entry15, entry16] }⟩) := by
  simp [steps, step, Config.init, stmt15, stmt16, ESP_LOGI, TAG, entry15, entry16, bind,
    Except.bind, pure, Except.pure]

theorem steps_beyond (ε : Type) {γ ρ : Type} (n : Nat) (w : World γ ρ) :
    steps ε (n + 3) (Config.init w) = .ok none := by
  simp [steps, step, Config.init, stmt15, stmt16, ESP_LOGI, bind, Except.bind, pure,
    Except.pure]

/-! ## The claims -/

/-- C1: from every initial state one invocation of `app_main` succeeds and
leaves the sink holding its earlier contents followed by exactly two new
entries; the first of them is the one the statement of line 15 writes in the
initial state, the second the one the statement of line 16 writes in the
state after it, and both carry the tag `"gdo_test"`. -/
theorem app_main_two_emissions (ε γ ρ : Type) (w : World γ ρ) :
    ∃ e1 e2 : LogEntry,
      app_main ε w = .ok ((), { w with log := w.log ++ [e1, e2] }) ∧
      emitted ε w = [e1, e2] ∧
      (emitted ε w).length = 2 ∧
      stmt15 ε w = .ok { w with log := w.log ++ [e1] } ∧
      stmt16 ε { w with log := w.log ++ [e1] } = .ok { w with log := w.log ++ [e1] ++ [e2] } ∧
      e1.tag = "gdo_test" ∧ e2.tag = "gdo_test" ∧ TAG = "gdo_test" := by
  refine ⟨entry15, entry16, app_main_eq ε w, emitted_eq ε w, ?_, rfl, rfl, rfl, rfl, rfl⟩
  rw [emitted_eq]
  rfl

/-- C2: the first emission of `app_main` has as its message exactly the string
`"ESP32-C6 GDO Library - Build verification only"`, whatever the initial
state; the string holds no `%` conversion, so it reaches the sink verbatim. -/
theorem app_main_first_message (ε γ ρ : Type) (w : World γ ρ) :
    ((emitted ε w).get? 0).map LogEntry.format
        = some "ESP32-C6 GDO Library - Build verification only" ∧
      ((emitted ε w).get? 0).map (fun e => e.format.toList.contains '%') = some false := by
  rw [emitted_eq]
  exact ⟨rfl, by decide⟩

/-- C3: the second emission of `app_main` has as its message exactly the string
`"This application is for library compilation testing"`, whatever the initial
state; the string holds no `%` conversion, so it reaches the sink verbatim. -/
theorem app_main_second_message (ε γ ρ : Type) (w : World γ ρ) :
    ((emitted ε w).get? 1).map LogEntry.format
        = some "This application is for library compilation testing" ∧
      ((emitted ε w).get? 1).map (fun e => e.format.toList.contains '%') = some false := by
  rw [emitted_eq]
  exact ⟨rfl, by decide⟩

/-- C4: over the whole observable state (sink, record of calls into the GDO
library, and every other component), the state after `app_main` is the
initial state with two entries appended to the sink: the record of GDO calls
and the remaining components are those of the initial state, so no GDO
library function was invoked. -/
theorem app_main_frame (ε γ ρ : Type) (w : World γ ρ) :
    ∃ w' : World γ ρ, ∃ e1 e2 : LogEntry,
      app_main ε w = .ok ((), w') ∧
      w'.log = w.log ++ [e1, e2] ∧
      w'.gdo_calls = w.gdo_calls ∧
      w'.rest = w.rest ∧
      w' = { w with log := w.log ++ [e1, e2] } :=
  ⟨_, entry15, entry16, app_main_eq ε w, rfl, rfl, rfl, rfl⟩

/-- C5: `app_main` cannot fail: for every error type and every initial state it
returns the success value `()` together with a final state, it is never an
error, and neither the logging call it is built from nor any single step of
it has an error outcome. -/
theorem app_main_no_failure (ε γ ρ : Type) (w : World γ ρ) :
    (∃ w' : World γ ρ, app_main ε w = .ok ((), w')) ∧
      (∀ e : ε, app_main ε w ≠ .error e) ∧
      (∀ (tag format : String) (v : World γ ρ), ∃ v', ESP_LOGI ε tag format v = .ok v') ∧
      (∀ c : Config γ ρ, ∃ r, step ε c = .ok r) := by
  refine ⟨⟨_, app_main_eq ε w⟩, ?_, ?_, ?_⟩
  · intro e
    rw [app_main_eq]
    exact fun h => Except.noConfusion h
  · intro tag format v
    exact ⟨_, rfl⟩
  · rintro ⟨pc, v⟩
    cases pc <;> exact ⟨_, rfl⟩

/-- C6: `app_main` terminates from every initial state.  Running it step by
step, the first step is the log call of line 15, the second the log call of
line 16, after which control has returned: no step exists from there, and no
execution has three or more steps.  Every step that exists lowers the number
of statements left by one and adds one entry to the sink, so there is no
loop; the result of the two steps is the result of `app_main`. -/
theorem app_main_terminates (ε γ ρ : Type) (w : World γ ρ) :
    ∃ e1 e2 : LogEntry,
      steps ε 0 (Config.init w) = .ok (some ⟨.line15, w⟩) ∧
      steps ε 1 (Config.init w) = .ok (some ⟨.line16, { w with log := w.log ++ [e1] }⟩) ∧
      steps ε 2 (Config.init w)
        = .ok (some ⟨.returned, { w with log := w.log ++ [e1, e2] }⟩) ∧
      step ε (⟨.returned, { w with log := w.log ++ [e1, e2] }⟩ : Config γ ρ) = .ok none ∧
      (∀ n : Nat, steps ε (n + 3) (Config.init w) = .ok none) ∧
      app_main ε w = .ok ((), { w with log := w.log ++ [e1, e2] }) ∧
      (∀ c : Config γ ρ,
        match step ε c with
        | .ok (some c') =>
            c'.pc.remaining + 1 = c.pc.remaining ∧
              c'.world.log.length = c.world.log.length + 1
        | .ok none => c.pc = .returned
        | .error _ => False) := by
  refine ⟨entry15, entry16, rfl, rfl, steps_two ε w, rfl, fun n => steps_beyond ε n w,
    app_main_eq ε w, ?_⟩
  rintro ⟨pc, v⟩
  cases pc <;>
    simp [step, stmt15, stmt16, ESP_LOGI, Pc.remaining, bind, Except.bind, pure, Except.pure]

/-- C8: both emissions of `app_main` are made at the informational level, and
none at the error, warning, debug or verbose level. -/
theorem app_main_levels_info (ε γ ρ : Type) (w : World γ ρ) :
    (emitted ε w).map LogEntry.level
        = [esp_log_level_t.ESP_LOG_INFO, esp_log_level_t.ESP_LOG_INFO] ∧
      (emitted ε w).all (fun e => e.level == .ESP_LOG_INFO) = true ∧
      (emitted ε w).any (fun e =>
        e.level == .ESP_LOG_ERROR || e.level == .ESP_LOG_WARN ||
          e.level == .ESP_LOG_DEBUG || e.level == .ESP_LOG_VERBOSE) = false := by
  rw [emitted_eq]
  exact ⟨rfl, by decide, by decide⟩

/-- C9: the sequence of (level, tag, message) triples emitted by `app_main` is
the same from any two initial states, whatever the sink already held,
whatever the rest of the system is, and whatever its type. -/
theorem app_main_emissions_independent (ε₁ ε₂ γ₁ ρ₁ γ₂ ρ₂ : Type)
    (w₁ : World γ₁ ρ₁) (w₂ : World γ₂ ρ₂) :
    emitted ε₁ w₁ = emitted ε₂ w₂ := by
  rw [emitted_eq, emitted_eq]

end GdoBuild
